import Mathlib

/-!
Shallow embedding of the GoBank HTTP banking service (Go, `package main`)
and its Postgres-backed account store, together with proofs about the
behaviour of its login handler, JWT issuance/validation, authorization
gate, transfer handler and store operations.

Machine integers of the Go source (`int`, `int64`) are modelled as `Int`;
none of the modelled code paths depend on overflow. Strings model Go
strings. The Postgres `accounts` table is modelled as a list of rows.
-/

namespace GoBank

/-- Account record, mirroring the columns scanned by `scanIntoAccounts`
(`id, first_name, last_name, number, encrypted_password, balance,
created_at`). The creation timestamp is an integer instant. -/
structure Account where
  id : Int
  firstName : String
  lastName : String
  number : Int
  encryptedPassword : String
  balance : Int
  createdAt : Int
deriving Repr, DecidableEq

/-- Modelled from the spec: the repository's types file (containing
`NewAccount` and `Account.ValidatePassword`) is not among the provided
source files; only its callers (`handleLogin`) and its test are. Per
spec §4.1, `VerifyPassword` "compares suppliedSecret's one-way hash
against the stored hash" and "Returns false (not an error) on mismatch".
The one-way hash is modelled as an injective tagging function. -/
def hashPassword (pw : String) : String := "bcrypt$" ++ pw

/-- Modelled from the spec: password verification compares the one-way
hash of the supplied secret against the stored `encryptedPassword`,
returning `true` exactly on a match (spec §4.1 `VerifyPassword`). -/
def Account.ValidatePassword (a : Account) (pw : String) : Bool :=
  hashPassword pw == a.encryptedPassword

/-! ## Account store (PostgreStore)

The `accounts` table is a list of rows; SQL queries are modelled by
their effect on that list. -/

/-- Store error for a failed lookup, mirroring
`fmt.Errorf("account %d not found", ...)`. -/
def notFoundMsg (key : Int) : String :=
  "account " ++ toString key ++ " not found"

/-- `PostgreStore.GetAccountByID`: `SELECT * FROM accounts WHERE id = $1`,
returning the first matching row, or the not-found error when no row
matches. -/
def GetAccountByID (rows : List Account) (id : Int) : Except String Account :=
  match rows.find? (fun a => a.id == id) with
  | some a => .ok a
  | none => .error (notFoundMsg id)

/-- `PostgreStore.GetAccountByNumber`: `SELECT * FROM accounts WHERE
number = $1`, returning the first matching row, or the not-found error
when no row matches. -/
def GetAccountByNumber (rows : List Account) (number : Int) :
    Except String Account :=
  match rows.find? (fun a => a.number == number) with
  | some a => .ok a
  | none => .error (notFoundMsg number)

/-- `PostgreStore.DeleteAccount`: `DELETE FROM accounts WHERE id = $1`
removes every row whose `id` matches. -/
def DeleteAccount (rows : List Account) (id : Int) : List Account :=
  rows.filter (fun a => !(a.id == id))

/-! ## JWT model (`github.com/golang-jwt/jwt/v5`)

A signed token is its algorithm, its claims map and its signature.
`createJWT` populates exactly two claim keys, the custom `"ExpiresAt"`
and `"AccountNumber"`; the registered `"exp"` key (the one the jwt/v5
claims validator reads) is a separate, optional field of the claims
map. The HMAC signature is modelled as an injective encoding of the
secret, the algorithm and the claims. -/

/-- Signing algorithms relevant to `validateJWT`'s key function:
the HMAC family (`jwt.SigningMethodHMAC`), a representative asymmetric
method, and the `none` method. -/
inductive Alg
  | HS256
  | HS384
  | HS512
  | RS256
  | noAlg
deriving Repr, DecidableEq

/-- Membership test mirroring the type assertion
`token.Method.(*jwt.SigningMethodHMAC)` in `validateJWT`'s key
function. -/
def Alg.isHMAC : Alg → Bool
  | .HS256 => true
  | .HS384 => true
  | .HS512 => true
  | _ => false

/-- Printable algorithm name, used only inside the modelled MAC. -/
def Alg.name : Alg → String
  | .HS256 => "HS256"
  | .HS384 => "HS384"
  | .HS512 => "HS512"
  | .RS256 => "RS256"
  | .noAlg => "none"

/-- Claims map of a GoBank token. `expiresAt` is the custom
`"ExpiresAt"` key written by `createJWT`; `accountNumber` is the
`"AccountNumber"` key; `exp` is the registered expiry key that the
jwt/v5 claims validator consults (never written by `createJWT`). -/
structure Claims where
  expiresAt : Option Int
  accountNumber : Option Int
  exp : Option Int
deriving Repr, DecidableEq

/-- Canonical serialisation of a claims map, for the modelled MAC. -/
def encodeClaims (c : Claims) : String :=
  toString c.expiresAt ++ "|" ++ toString c.accountNumber ++ "|" ++ toString c.exp

/-- Modelled symmetric MAC over the encoded claims under the
process-wide secret: an injective encoding standing in for HMAC-SHA. -/
def macSign (secret : String) (alg : Alg) (c : Claims) : String :=
  "mac(" ++ secret ++ "," ++ alg.name ++ "," ++ encodeClaims c ++ ")"

/-- A compact (well-formed) serialised token: algorithm header, claims
payload and signature segment. -/
structure Token where
  alg : Alg
  claims : Claims
  sig : String
deriving Repr, DecidableEq

/-- A token string on the wire: either it does not split into the three
dot-separated segments (this includes the empty string produced by a
missing `Authorization` header), or it is a well-formed compact token. -/
inductive TokenWire
  | malformed
  | wellFormed (t : Token)
deriving Repr, DecidableEq

/-- Result of `jwt.Parse`: the parsed token as the library returns it,
carrying its `Valid` flag. -/
structure ParsedToken where
  alg : Alg
  claims : Claims
  valid : Bool
deriving Repr, DecidableEq

/-- Timestamp `time.Unix(1516239022, 0)` hard-coded as the
`"ExpiresAt"` claim in `createJWT` (2018-01-18). -/
def hardcodedExpiry : Int := 1516239022

/-- `createJWT`: builds the claims map `{"ExpiresAt": 1516239022,
"AccountNumber": account.Number}`, and signs it with HS256 under the
process secret. Signing with a byte-slice HMAC key cannot fail, so the
model is total. -/
def createJWT (secret : String) (account : Account) : Token :=
  let claims : Claims :=
    { expiresAt := some hardcodedExpiry
      accountNumber := some account.number
      exp := none }
  { alg := .HS256, claims := claims, sig := macSign secret .HS256 claims }

/-- `validateJWT`, i.e. `jwt.Parse` with the key function that rejects
every non-HMAC signing method. Mirrors the jwt/v5 pipeline: a string
that does not split into three segments yields a `nil` token
(`none`) and a malformed error; otherwise the key function runs (alg
check), then the signature is verified, then the registered claims are
validated (`exp`, only when present, against the current time `now`);
only a token that passes everything is returned with `Valid = true`
and a `none` error. -/
def validateJWT (secret : String) (now : Int) :
    TokenWire → Option ParsedToken × Option String
  | .malformed => (none, some "token contains an invalid number of segments")
  | .wellFormed t =>
    if !t.alg.isHMAC then
      (some { alg := t.alg, claims := t.claims, valid := false },
       some ("unexpected signing method: " ++ t.alg.name))
    else if !(t.sig == macSign secret t.alg t.claims) then
      (some { alg := t.alg, claims := t.claims, valid := false },
       some "token signature is invalid")
    else
      match t.claims.exp with
      | some e =>
        if e < now then
          (some { alg := t.alg, claims := t.claims, valid := false },
           some "token is expired")
        else
          (some { alg := t.alg, claims := t.claims, valid := true }, none)
      | none =>
        (some { alg := t.alg, claims := t.claims, valid := true }, none)

/-! ## Login handler -/

/-- Body of `POST /login`: `{number, password}`. -/
structure LoginRequest where
  number : Int
  password : String
deriving Repr, DecidableEq

/-- Successful login body: `{token, number}`. -/
structure LoginResponse where
  token : Token
  number : Int
deriving Repr, DecidableEq

/-- Outcome of an `apiFunc` handler as seen through
`makeHTTPHandlerFunc`: either the 200 body it wrote, or the error it
returned, which the wrapper writes as a 400 `{error: ...}` body. -/
inductive LoginOutcome
  | ok (resp : LoginResponse)
  | badRequest (msg : String)
deriving Repr, DecidableEq

/-- `handleLogin` on a decoded `POST` body: looks the account up by
number, then returns the error `"not authenticated"` when
`acc.ValidatePassword(req.Password)` is true, and otherwise issues a
token and writes `200 {token, number}`. -/
def handleLogin (secret : String) (rows : List Account)
    (req : LoginRequest) : LoginOutcome :=
  match GetAccountByNumber rows req.number with
  | .error e => .badRequest e
  | .ok acc =>
    if acc.ValidatePassword req.password then
      .badRequest "not authenticated"
    else
      .ok { token := createJWT secret acc, number := acc.number }

/-! ## Authorization gate (`withJWTAuth`) -/

/-- Observable outcome of one run of the closure returned by
`withJWTAuth`: `forbidden` when `PermissionDenied` writes the uniform
`403 {error: "Forbidden"}` body and the wrapped handler is not
invoked; `handled` when control reaches `handlerFunc(w, r)`;
`panicked` when the Go code dereferences a `nil` token pointer or a
failed type assertion panics. -/
inductive GateOutcome
  | forbidden
  | handled
  | panicked
deriving Repr, DecidableEq

/-- The parts of an incoming gated request the gate reads: the
`Authorization` header (a raw token string; a missing header reads as
the empty string, which is a malformed wire token), and the result of
`getID`, i.e. `strconv.Atoi` on the `{id}` path variable (`none` when
the variable is not numeric). -/
structure GateRequest where
  authHeader : TokenWire
  pathID : Option Int
deriving Repr, DecidableEq

/-- Continuation of `withJWTAuth` after its token check falls through:
`getID` on the path variable, `GetAccountByID`, and the comparison of
the account's number against the token's `"AccountNumber"` claim. A
missing claim key makes the Go type assertion
`claims["AccountNumber"].(float64)` panic. -/
def gateAfterTokenCheck (rows : List Account) (pathID : Option Int)
    (t : ParsedToken) : GateOutcome :=
  match pathID with
  | none => .forbidden
  | some id =>
    match GetAccountByID rows id with
    | .error _ => .forbidden
    | .ok account =>
      match t.claims.accountNumber with
      | none => .panicked
      | some n =>
        if !(account.number == n) then .forbidden
        else .handled

/-- `withJWTAuth`: validates the `Authorization` token, resolves the
path id, loads that account, and compares the account's number against
the token's `"AccountNumber"` claim, calling `PermissionDenied` on any
check that fails and the wrapped handler otherwise. The Go guard is
`if err != nil && !token.Valid`: when `validateJWT` returns an error
together with a `nil` token (malformed input), evaluating
`token.Valid` dereferences a nil pointer, modelled as `panicked`. -/
def withJWTAuth (secret : String) (now : Int) (rows : List Account)
    (r : GateRequest) : GateOutcome :=
  let parsed := validateJWT secret now r.authHeader
  match parsed.2, parsed.1 with
  | some _, none => .panicked
  | some _, some t =>
    if !t.valid then .forbidden
    else gateAfterTokenCheck rows r.pathID t
  | none, none => .panicked
  | none, some t => gateAfterTokenCheck rows r.pathID t

/-! ## Transfer handler -/

/-- Body of `POST /transfer`. The repository's types file is not among
the provided sources; per spec §3 a `TransferRequest` is
`{source account number, destination account number, amount}`. -/
structure TransferRequest where
  source : Int
  destination : Int
  amount : Int
deriving Repr, DecidableEq

/-- Outcome of the transfer handler through `makeHTTPHandlerFunc`:
either the 200 body it wrote, or an error written as 400. -/
inductive TransferOutcome
  | ok (body : TransferRequest)
  | badRequest (msg : String)
deriving Repr, DecidableEq

/-- `handleTransferAccount` on a decoded body: the Go handler decodes
the request and immediately writes it back with status 200; it makes
no call into the store, so the rows are returned unchanged alongside
the response. -/
def handleTransferAccount (rows : List Account) (req : TransferRequest) :
    List Account × TransferOutcome :=
  (rows, .ok req)

/-! ## Sample data used by concrete evaluations -/

/-- Sample stored account: number 1001, balance 100, credential the
hash of `pw1`. -/
def accA : Account :=
  { id := 1, firstName := "Alice", lastName := "Smith", number := 1001,
    encryptedPassword := hashPassword "pw1", balance := 100, createdAt := 0 }

/-- Second sample stored account: number 1002, balance 0. -/
def accB : Account :=
  { id := 2, firstName := "Bob", lastName := "Jones", number := 1002,
    encryptedPassword := hashPassword "pw2", balance := 0, createdAt := 0 }

/-- Sample store contents. -/
def sampleRows : List Account := [accA, accB]

/-! ## Theorems -/

/-- C1: the claim says `POST /login` answers 200 with a token when the
supplied password matches the stored credential and 400 when it does
not. The code has the check inverted: `handleLogin` evaluated on
account 1001 whose stored credential is the hash of `pw1` returns the
400 error `not authenticated` for the matching password `pw1`, and
returns 200 with a token for the non-matching password `wrong`. -/
theorem C1_login_password_check_inverted :
    handleLogin "s" sampleRows { number := 1001, password := "pw1" }
      = .badRequest "not authenticated"
    ∧ handleLogin "s" sampleRows { number := 1001, password := "wrong" }
      = .ok { token := createJWT "s" accA, number := 1001 } := by
  exact ⟨rfl, rfl⟩

/-- C2: the claim says a successful transfer debits the source and
credits the destination. Evaluating `handleTransferAccount` on a
transfer of 50 from account 1001 (balance 100) to account 1002
(balance 0) shows the handler echoes the request with status 200 and
leaves the store untouched: both balances are unchanged afterwards, so
the source is not decreased and the destination not increased. -/
theorem C2_transfer_mutates_nothing :
    handleTransferAccount sampleRows
        { source := 1001, destination := 1002, amount := 50 }
      = (sampleRows, .ok { source := 1001, destination := 1002, amount := 50 })
    ∧ GetAccountByNumber sampleRows 1001 = .ok accA
    ∧ GetAccountByNumber sampleRows 1002 = .ok accB
    ∧ accA.balance = 100
    ∧ accB.balance = 0 := by
  exact ⟨rfl, rfl, rfl, rfl, rfl⟩

/-- C3: the claim says a transfer with amount ≤ 0, or amount above the
source balance, returns an error. Evaluating `handleTransferAccount`
on an amount of -5 and on an amount of 500 (source balance 100) shows
the handler answers 200 echoing the body in both cases — it performs
no validation at all — though the balances are indeed unchanged. -/
theorem C3_invalid_transfer_not_rejected :
    handleTransferAccount sampleRows
        { source := 1001, destination := 1002, amount := -5 }
      = (sampleRows, .ok { source := 1001, destination := 1002, amount := -5 })
    ∧ handleTransferAccount sampleRows
        { source := 1001, destination := 1002, amount := 500 }
      = (sampleRows, .ok { source := 1001, destination := 1002, amount := 500 })
    ∧ accA.balance = 100 := by
  exact ⟨rfl, rfl, rfl⟩

/-- C4: the claim says a token whose embedded expiry instant is past
must fail validation even with a valid signature. `createJWT` stores
the expiry under the custom claim key `ExpiresAt` (hard-coded to the
2018 instant 1516239022), a key the jwt/v5 claims validator never
reads (it reads the registered `exp` key, which `createJWT` leaves
unset): validating such a token at the later instant 1700000000
succeeds with `Valid = true` and no error. -/
theorem C4_embedded_expiry_not_enforced :
    (createJWT "s" accA).claims.expiresAt = some hardcodedExpiry
    ∧ hardcodedExpiry < 1700000000
    ∧ validateJWT "s" 1700000000 (.wellFormed (createJWT "s" accA))
      = (some { alg := .HS256, claims := (createJWT "s" accA).claims,
                valid := true }, none) := by
  refine ⟨rfl, by decide, ?_⟩
  simp [validateJWT, createJWT, Alg.isHMAC]

/-- C5: validating a token issued by `createJWT` under the same secret,
at any instant before the token's embedded expiry, succeeds and the
token's claims carry the issuing account's number. -/
theorem C5_issue_validate_roundtrip (secret : String) (acc : Account)
    (now : Int) (h : now < hardcodedExpiry) :
    validateJWT secret now (.wellFormed (createJWT secret acc))
      = (some { alg := .HS256, claims := (createJWT secret acc).claims,
                valid := true }, none)
    ∧ (createJWT secret acc).claims.accountNumber = some acc.number := by
  exact ⟨by simp [validateJWT, createJWT, Alg.isHMAC], rfl⟩

/-- Witness for C5 at secret `s`, account `accA`, instant 0. -/
theorem C5_issue_validate_roundtrip_witness :
    (0 : Int) < hardcodedExpiry
    ∧ (validateJWT "s" 0 (.wellFormed (createJWT "s" accA))
        = (some { alg := .HS256, claims := (createJWT "s" accA).claims,
                  valid := true }, none)
       ∧ (createJWT "s" accA).claims.accountNumber = some accA.number) :=
  ⟨by decide, C5_issue_validate_roundtrip "s" accA 0 (by decide)⟩

/-- C6: a valid token issued for account `a` presented on the resource
of an account `b` with a different number makes `withJWTAuth` answer
the uniform Forbidden response without invoking the wrapped
handler. -/
theorem C6_cross_account_token_forbidden (secret : String) (now : Int)
    (rows : List Account) (a b : Account) (id : Int)
    (hn : a.number ≠ b.number)
    (hres : GetAccountByID rows id = .ok b) :
    withJWTAuth secret now rows
        { authHeader := .wellFormed (createJWT secret a), pathID := some id }
      = .forbidden := by
  have hba : (b.number == a.number) = false := by
    simp only [beq_eq_false_iff_ne]
    exact fun hc => hn hc.symm
  simp [withJWTAuth, validateJWT, createJWT, Alg.isHMAC,
    gateAfterTokenCheck, hres, hba]

/-- Witness for C6: `accA`'s token on `accB`'s resource (path id 2). -/
theorem C6_cross_account_token_forbidden_witness :
    accA.number ≠ accB.number
    ∧ GetAccountByID sampleRows 2 = .ok accB
    ∧ withJWTAuth "s" 0 sampleRows
        { authHeader := .wellFormed (createJWT "s" accA), pathID := some 2 }
      = .forbidden :=
  ⟨by decide, by rfl,
    C6_cross_account_token_forbidden "s" 0 sampleRows accA accB 2
      (by decide) (by rfl)⟩

/-- C7: the claim says every authorization failure, including a missing
token, yields the uniform Forbidden body and the gate never fails any
other way. With a missing `Authorization` header the token string is
empty, `jwt.Parse` returns a nil token with a malformed-token error,
and the guard `err != nil && !token.Valid` dereferences the nil
pointer: the gate panics instead of answering 403. -/
theorem C7_missing_token_panics :
    withJWTAuth "s" 0 sampleRows
        { authHeader := .malformed, pathID := some 1 }
      = .panicked := by
  exact rfl

/-- C8: after `DeleteAccount` removes an id, `GetAccountByID` on that
id fails with the not-found error, for every store state. -/
theorem C8_delete_then_lookup_not_found (rows : List Account) (id : Int) :
    GetAccountByID (DeleteAccount rows id) id = .error (notFoundMsg id) := by
  unfold GetAccountByID DeleteAccount
  have hnone :
      (rows.filter (fun a => !(a.id == id))).find? (fun a => a.id == id)
        = none := by
    rw [List.find?_eq_none]
    intro a ha
    have hmem := List.mem_filter.mp ha
    simpa using hmem.2
  rw [hnone]

/-- C9: a well-formed token whose signing method is outside the HMAC
family (the `none` method or an asymmetric method) is rejected by
`validateJWT` with an error, whatever its claims and signature. -/
theorem C9_non_hmac_method_rejected (secret : String) (now : Int)
    (t : Token) (h : t.alg.isHMAC = false) :
    validateJWT secret now (.wellFormed t)
      = (some { alg := t.alg, claims := t.claims, valid := false },
         some ("unexpected signing method: " ++ t.alg.name)) := by
  simp [validateJWT, h]

/-- Witness for C9: an RS256-signed token is rejected. -/
theorem C9_non_hmac_method_rejected_witness :
    Alg.RS256.isHMAC = false
    ∧ validateJWT "s" 0 (.wellFormed
        { alg := .RS256,
          claims := { expiresAt := none, accountNumber := some 1001,
                      exp := none },
          sig := "sig" })
      = (some { alg := .RS256,
                claims := { expiresAt := none, accountNumber := some 1001,
                            exp := none },
                valid := false },
         some ("unexpected signing method: " ++ Alg.RS256.name)) :=
  ⟨by decide,
    C9_non_hmac_method_rejected "s" 0
      { alg := .RS256,
        claims := { expiresAt := none, accountNumber := some 1001,
                    exp := none },
        sig := "sig" } (by decide)⟩

/-- C10: for every store state and every decoded `POST /transfer` body,
the transfer handler leaves the store unchanged — every account lookup
afterwards agrees with the lookup before — and answers 200 with the
decoded body echoed back. -/
theorem C10_transfer_handler_is_pure_echo (rows : List Account)
    (req : TransferRequest) :
    (handleTransferAccount rows req).1 = rows
    ∧ (handleTransferAccount rows req).2 = .ok req
    ∧ ∀ n : Int, GetAccountByNumber (handleTransferAccount rows req).1 n
        = GetAccountByNumber rows n := by
  exact ⟨rfl, rfl, fun _ => rfl⟩

end GoBank
